import Mathlib

/-!
Verification of the dusty VM-provisioning and command-payload core.

Shallow embedding of:
- `src/dusty/payload.py` (command payload, serialization, handler registry),
- `src/dusty/systems/virtualbox/__init__.py` (VM provisioner, asset store),
- the memoization cache (`dusty/memoize.py` is not in the source tree; it is
  modelled from the specification and its unit tests).

Python machine-level conventions used throughout: byte strings on the wire are
`List Nat` of byte values; Python exceptions are an explicit `PyErr` error type
returned through `Except`; Python tuples and dictionaries are explicit inductive
sequences keyed in insertion order; the external world (VirtualBox, the VM
filesystem) is explicit state threaded through each operation, and every
external command issued is recorded in a trace.
-/

namespace Dusty

set_option autoImplicit false

/-! ## Python values and errors -/

mutual

/-- The universe of serializable Python values appearing in payloads: `None`,
booleans, integers, strings, function objects pickled by reference as
(module, qualified name), tuples/lists, and string-keyed dictionaries. -/
inductive PyVal where
  | none : PyVal
  | bool (b : Bool) : PyVal
  | int (i : Int) : PyVal
  | str (s : String) : PyVal
  | func (module fname : String) : PyVal
  | list (l : PyTup) : PyVal
  | dict (d : PyDict) : PyVal
  deriving DecidableEq, Repr

/-- A Python tuple/list of serializable values. -/
inductive PyTup where
  | nil : PyTup
  | cons (v : PyVal) (t : PyTup) : PyTup
  deriving DecidableEq, Repr

/-- A Python string-keyed dictionary of serializable values, in insertion
order. -/
inductive PyDict where
  | nil : PyDict
  | cons (k : String) (v : PyVal) (t : PyDict) : PyDict
  deriving DecidableEq, Repr

end

/-- Python exceptions raised by the embedded code, by dynamic type.
`calledProcessError` is the transport/process failure raised when an external
command exits nonzero; the others are in-process errors. -/
inductive PyErr where
  | typeError (msg : String)
  | runtimeError (msg : String)
  | valueError (msg : String)
  | indexError
  | unpicklingError
  | calledProcessError (returncode : Int)
  deriving DecidableEq, Repr

/-- Number of entries of a Python tuple. -/
def PyTup.length : PyTup → Nat
  | .nil => 0
  | .cons _ t => t.length + 1

/-- Number of entries of a Python dictionary. -/
def PyDict.length : PyDict → Nat
  | .nil => 0
  | .cons _ _ t => t.length + 1

/-- Lookup of a key in a Python dictionary. -/
def PyDict.lookup (d : PyDict) (key : String) : Option PyVal :=
  match d with
  | .nil => Option.none
  | .cons k v t => if k = key then some v else t.lookup key

/-- Lookup of a key in a dictionary value; nothing on a non-dictionary. -/
def PyVal.dictLookup : PyVal → String → Option PyVal
  | .dict d, key => d.lookup key
  | _, _ => Option.none

/-! ## Command payload (`src/dusty/payload.py`) -/

/-- A reference to a Python function by its `__module__` and `__name__`; this
is what `cPickle` stores when a function object is pickled. -/
structure FuncRef where
  module : String
  fname : String
  deriving DecidableEq, Repr

/-- Modelled from the spec: `dusty/constants.py` is not in the source tree.
`VERSION` is the client protocol version string stamped into every payload; its
value is opaque to payload semantics. -/
def VERSION : String := "dusty-client-version"

/-- `Payload.__init__` fields: a function reference, the fixed
`run_on_daemon`/`client_version`/`suppress_warnings` stamps, positional
arguments, and keyword arguments. -/
structure Payload where
  fn : FuncRef
  run_on_daemon : Bool
  client_version : String
  args : PyTup
  kwargs : PyDict
  suppress_warnings : Bool
  deriving DecidableEq, Repr

/-- `Payload.__init__(fn, *args, **kwargs)`: binds fn, args and kwargs, sets
`run_on_daemon = True`, `client_version = VERSION`,
`suppress_warnings = False`. -/
def Payload.init (fn : FuncRef) (args : PyTup) (kwargs : PyDict) : Payload :=
  { fn := fn, run_on_daemon := true, client_version := VERSION,
    args := args, kwargs := kwargs, suppress_warnings := false }

/-- A Python object as seen by `Payload.__eq__`: either a `Payload` instance or
any other (serializable) value. -/
inductive PyObject where
  | val (v : PyVal) : PyObject
  | payloadObj (p : Payload) : PyObject
  deriving DecidableEq, Repr

/-- `Payload.__eq__`: `isinstance(other, self.__class__)` and then comparison
of `fn`, `args` and `kwargs` only; any non-`Payload` object compares
unequal. -/
def Payload.eq (p : Payload) (other : PyObject) : Bool :=
  match other with
  | .payloadObj q => p.fn == q.fn && p.args == q.args && p.kwargs == q.kwargs
  | .val _ => false

/-- `Payload.run`: evaluates `self.fn(*self.args, **self.kwargs)`; the body has
no `return` statement, so the call's result is discarded and `None` is the
value of the call. `call` supplies the ambient binding of function references
to executable handlers. -/
def Payload.run (call : FuncRef → PyTup → PyDict → PyVal) (p : Payload) : PyVal :=
  let _ := call p.fn p.args p.kwargs
  PyVal.none

/-- The dictionary built inside `Payload.serialize`:
`{'fn': ..., 'client_version': ..., 'suppress_warnings': ..., 'args': ...,
'kwargs': ...}`. -/
def Payload.doc (p : Payload) : PyVal :=
  .dict (.cons "fn" (.func p.fn.module p.fn.fname)
        (.cons "client_version" (.str p.client_version)
        (.cons "suppress_warnings" (.bool p.suppress_warnings)
        (.cons "args" (.list p.args)
        (.cons "kwargs" (.dict p.kwargs) .nil)))))

/-! ## The pickle codec

`cPickle.dumps`/`cPickle.loads` are standard-library collaborators; they are
modelled by a concrete executable byte codec over the serializable value
universe, with the library's contract (`loads(dumps(x)) == x`, and an
`UnpicklingError` on bytes that do not decode) proved rather than assumed. -/

/-- Byte encoding of a string: a length byte followed by the character
codes. -/
def strEncode (s : String) : List Nat :=
  s.data.length :: s.data.map Char.toNat

mutual

/-- `cPickle.dumps` on a serializable value: a tag byte followed by the
payload; sequences and dictionaries are length-prefixed. -/
def pickleEncode : PyVal → List Nat
  | .none => [0]
  | .bool b => [1, if b then 1 else 0]
  | .int i => [2, if i < 0 then 1 else 0, i.natAbs]
  | .str s => 3 :: strEncode s
  | .func m n => 4 :: (strEncode m ++ strEncode n)
  | .list l => 5 :: l.length :: pickleEncodeTup l
  | .dict d => 6 :: d.length :: pickleEncodeDict d

/-- Byte encoding of the entries of a tuple, in order. -/
def pickleEncodeTup : PyTup → List Nat
  | .nil => []
  | .cons v t => pickleEncode v ++ pickleEncodeTup t

/-- Byte encoding of the entries of a dictionary, in insertion order. -/
def pickleEncodeDict : PyDict → List Nat
  | .nil => []
  | .cons k v t => strEncode k ++ (pickleEncode v ++ pickleEncodeDict t)

end

/-- Read `n` character codes from the input. -/
def decodeChars : Nat → List Nat → Option (List Char × List Nat)
  | 0, input => some ([], input)
  | _ + 1, [] => Option.none
  | n + 1, c :: rest => (decodeChars n rest).map (fun p => (Char.ofNat c :: p.1, p.2))

/-- Decode a length-prefixed string from the input. -/
def decodeStr (input : List Nat) : Option (String × List Nat) :=
  match input with
  | [] => Option.none
  | n :: rest => (decodeChars n rest).map (fun p => (String.mk p.1, p.2))

mutual

/-- `cPickle.loads`, fuel-indexed: decode one value from the front of the
input, returning the remaining bytes. Fails on malformed input. -/
def pickleDecode : Nat → List Nat → Option (PyVal × List Nat)
  | 0, _ => Option.none
  | fuel + 1, input =>
    match input with
    | 0 :: r => some (.none, r)
    | 1 :: b :: r => some (.bool (b == 1), r)
    | 2 :: sgn :: mag :: r =>
        some (.int (if sgn == 1 then -(mag : Int) else (mag : Int)), r)
    | 3 :: r => (decodeStr r).map (fun p => (.str p.1, p.2))
    | 4 :: r =>
        match decodeStr r with
        | some (m, r') => (decodeStr r').map (fun p => (.func m p.1, p.2))
        | Option.none => Option.none
    | 5 :: n :: r => (pickleDecodeTup fuel n r).map (fun p => (.list p.1, p.2))
    | 6 :: n :: r => (pickleDecodeDict fuel n r).map (fun p => (.dict p.1, p.2))
    | _ => Option.none
termination_by fuel input => (fuel, 0)

/-- Decode `n` consecutive tuple entries. -/
def pickleDecodeTup : Nat → Nat → List Nat → Option (PyTup × List Nat)
  | _, 0, input => some (.nil, input)
  | fuel, n + 1, input =>
    match pickleDecode fuel input with
    | some (v, r) => (pickleDecodeTup fuel n r).map (fun p => (PyTup.cons v p.1, p.2))
    | Option.none => Option.none
termination_by fuel n input => (fuel, n + 1)

/-- Decode `n` consecutive dictionary entries (key string, then value). -/
def pickleDecodeDict : Nat → Nat → List Nat → Option (PyDict × List Nat)
  | _, 0, input => some (.nil, input)
  | fuel, n + 1, input =>
    match decodeStr input with
    | some (k, r) =>
        match pickleDecode fuel r with
        | some (v, r') => (pickleDecodeDict fuel n r').map (fun p => (PyDict.cons k v p.1, p.2))
        | Option.none => Option.none
    | Option.none => Option.none
termination_by fuel n input => (fuel, n + 1)

end

mutual

/-- Nesting depth of a value; a fuel bound for the decoder. -/
def depth : PyVal → Nat
  | .list l => depthTup l + 1
  | .dict d => depthDict d + 1
  | _ => 1

/-- Largest nesting depth among a tuple's entries. -/
def depthTup : PyTup → Nat
  | .nil => 0
  | .cons v t => max (depth v) (depthTup t)

/-- Largest nesting depth among a dictionary's values. -/
def depthDict : PyDict → Nat
  | .nil => 0
  | .cons _ v t => max (depth v) (depthDict t)

end

/-- `cPickle.loads` on a byte string: decode with ample fuel. -/
def pickleLoads (input : List Nat) : Option PyVal :=
  (pickleDecode (input.length + 1) input).map (fun p => p.1)

/-! ### Codec correctness -/

theorem depth_pos : ∀ v : PyVal, 1 ≤ depth v := by
  intro v
  cases v <;> simp [depth]

theorem decodeChars_encode : ∀ (cs : List Char) (r : List Nat),
    decodeChars cs.length (cs.map Char.toNat ++ r) = some (cs, r)
  | [], r => by simp [decodeChars]
  | c :: cs, r => by
      simp [decodeChars, decodeChars_encode cs r, Char.ofNat_toNat]

theorem decodeStr_encode (s : String) (r : List Nat) :
    decodeStr (strEncode s ++ r) = some (s, r) := by
  cases s with
  | mk cs => simp [strEncode, decodeStr, decodeChars_encode]

theorem pickleDecodeTup_encode (fuel : Nat)
    (hV : ∀ (v : PyVal) (r : List Nat), depth v ≤ fuel →
      pickleDecode fuel (pickleEncode v ++ r) = some (v, r)) :
    ∀ (t : PyTup) (r : List Nat), depthTup t ≤ fuel →
      pickleDecodeTup fuel t.length (pickleEncodeTup t ++ r) = some (t, r)
  | .nil, r, _ => by simp [PyTup.length, pickleEncodeTup, pickleDecodeTup]
  | .cons v t, r, h => by
      have hm : max (depth v) (depthTup t) ≤ fuel := by simpa [depthTup] using h
      have hv : depth v ≤ fuel := le_trans (le_max_left _ _) hm
      have ht : depthTup t ≤ fuel := le_trans (le_max_right _ _) hm
      simp [PyTup.length, pickleEncodeTup, pickleDecodeTup, List.append_assoc,
        hV v _ hv, pickleDecodeTup_encode fuel hV t r ht]

theorem pickleDecodeDict_encode (fuel : Nat)
    (hV : ∀ (v : PyVal) (r : List Nat), depth v ≤ fuel →
      pickleDecode fuel (pickleEncode v ++ r) = some (v, r)) :
    ∀ (d : PyDict) (r : List Nat), depthDict d ≤ fuel →
      pickleDecodeDict fuel d.length (pickleEncodeDict d ++ r) = some (d, r)
  | .nil, r, _ => by simp [PyDict.length, pickleEncodeDict, pickleDecodeDict]
  | .cons k v t, r, h => by
      have hm : max (depth v) (depthDict t) ≤ fuel := by simpa [depthDict] using h
      have hv : depth v ≤ fuel := le_trans (le_max_left _ _) hm
      have ht : depthDict t ≤ fuel := le_trans (le_max_right _ _) hm
      simp [PyDict.length, pickleEncodeDict, pickleDecodeDict, List.append_assoc,
        decodeStr_encode, hV v _ hv, pickleDecodeDict_encode fuel hV t r ht]

theorem pickleDecode_encode : ∀ (fuel : Nat) (v : PyVal) (r : List Nat),
    depth v ≤ fuel → pickleDecode fuel (pickleEncode v ++ r) = some (v, r) := by
  intro fuel
  induction fuel with
  | zero =>
    intro v r h
    exact absurd h (by have := depth_pos v; omega)
  | succ fuel ih =>
    intro v r h
    cases v with
    | none => simp [pickleEncode, pickleDecode]
    | bool b => cases b <;> simp [pickleEncode, pickleDecode]
    | int i =>
      rcases lt_or_le i 0 with hi | hi
      · have h1 : ((i.natAbs : Int)) = -i := by omega
        simp [pickleEncode, pickleDecode, hi, h1]
      · have hi' : ¬ i < 0 := not_lt.mpr hi
        have h1 : ((i.natAbs : Int)) = i := by omega
        simp [pickleEncode, pickleDecode, hi', h1]
    | str s => simp [pickleEncode, pickleDecode, decodeStr_encode]
    | func m n =>
      simp [pickleEncode, pickleDecode, List.append_assoc, decodeStr_encode]
    | list l =>
      have hl : depthTup l ≤ fuel := by
        have : depthTup l + 1 ≤ fuel + 1 := by simpa [depth] using h
        omega
      simp [pickleEncode, pickleDecode, pickleDecodeTup_encode fuel ih l r hl]
    | dict d =>
      have hd : depthDict d ≤ fuel := by
        have : depthDict d + 1 ≤ fuel + 1 := by simpa [depth] using h
        omega
      simp [pickleEncode, pickleDecode, pickleDecodeDict_encode fuel ih d r hd]

mutual

theorem depth_le_encodeLen :
    ∀ v : PyVal, depth v ≤ (pickleEncode v).length
  | .none => by simp [depth, pickleEncode]
  | .bool _ => by simp [depth, pickleEncode]
  | .int _ => by simp [depth, pickleEncode]
  | .str _ => by simp [depth, pickleEncode]
  | .func _ _ => by simp [depth, pickleEncode]
  | .list l => by
      have := depthTup_le_encodeLen l
      simp only [depth, pickleEncode, List.length_cons]
      omega
  | .dict d => by
      have := depthDict_le_encodeLen d
      simp only [depth, pickleEncode, List.length_cons]
      omega

theorem depthTup_le_encodeLen :
    ∀ t : PyTup, depthTup t ≤ (pickleEncodeTup t).length
  | .nil => by simp [depthTup, pickleEncodeTup]
  | .cons v t => by
      have h1 := depth_le_encodeLen v
      have h2 := depthTup_le_encodeLen t
      simp only [depthTup, pickleEncodeTup, List.length_append]
      omega

theorem depthDict_le_encodeLen :
    ∀ d : PyDict, depthDict d ≤ (pickleEncodeDict d).length
  | .nil => by simp [depthDict, pickleEncodeDict]
  | .cons k v t => by
      have h1 := depth_le_encodeLen v
      have h2 := depthDict_le_encodeLen t
      simp only [depthDict, pickleEncodeDict, List.length_append]
      omega

end

/-- The pickle contract: loading dumped bytes returns the original value. -/
theorem pickleLoads_encode (v : PyVal) : pickleLoads (pickleEncode v) = some v := by
  have hd : depth v ≤ (pickleEncode v).length + 1 := by
    have := depth_le_encodeLen v
    omega
  have h := pickleDecode_encode ((pickleEncode v).length + 1) v [] hd
  simp only [List.append_nil] at h
  simp [pickleLoads, h]

/-! ## The `string_escape` codec

`.encode('string_escape')` / `.decode('string_escape')` are the escaping
transform applied around the pickle bytes so the wire data survives
binary-unsafe transports: backslash and control bytes are replaced by
two-byte backslash escapes; decoding rejects malformed escapes. -/

/-- Escape one byte: backslash (92), newline (10), carriage return (13) and
tab (9) become backslash escapes; every other byte passes through. -/
def escapeByte (b : Nat) : List Nat :=
  if b = 92 then [92, 92]
  else if b = 10 then [92, 110]
  else if b = 13 then [92, 114]
  else if b = 9 then [92, 116]
  else [b]

/-- `.encode('string_escape')` over a byte string. -/
def stringEscapeEncode : List Nat → List Nat
  | [] => []
  | b :: t => escapeByte b ++ stringEscapeEncode t

/-- `.decode('string_escape')` over a byte string; fails on a dangling or
unknown escape. -/
def stringEscapeDecode : List Nat → Option (List Nat)
  | [] => some []
  | b :: rest =>
    if b = 92 then
      match rest with
      | [] => Option.none
      | e :: rest' =>
        if e = 92 then (stringEscapeDecode rest').map (fun l => 92 :: l)
        else if e = 110 then (stringEscapeDecode rest').map (fun l => 10 :: l)
        else if e = 114 then (stringEscapeDecode rest').map (fun l => 13 :: l)
        else if e = 116 then (stringEscapeDecode rest').map (fun l => 9 :: l)
        else Option.none
    else (stringEscapeDecode rest).map (fun l => b :: l)

/-- The escaping contract: decoding an encoded byte string restores it. -/
theorem stringEscapeDecode_encode :
    ∀ l : List Nat, stringEscapeDecode (stringEscapeEncode l) = some l
  | [] => rfl
  | b :: t => by
      by_cases h92 : b = 92
      · simp [stringEscapeEncode, escapeByte, h92, stringEscapeDecode,
          stringEscapeDecode_encode t]
      · by_cases h10 : b = 10
        · simp [stringEscapeEncode, escapeByte, h92, h10, stringEscapeDecode,
            stringEscapeDecode_encode t]
        · by_cases h13 : b = 13
          · simp [stringEscapeEncode, escapeByte, h92, h10, h13, stringEscapeDecode,
              stringEscapeDecode_encode t]
          · by_cases h9 : b = 9
            · simp [stringEscapeEncode, escapeByte, h92, h10, h13, h9,
                stringEscapeDecode, stringEscapeDecode_encode t]
            · rw [stringEscapeEncode, escapeByte, if_neg h92, if_neg h10,
                if_neg h13, if_neg h9, List.singleton_append,
                stringEscapeDecode.eq_def]
              simp [h92, stringEscapeDecode_encode t]

/-! ## `Payload.serialize` / `Payload.deserialize` -/

/-- `Payload.serialize`: `cPickle.dumps(doc).encode('string_escape')` where
`doc` is the field dictionary. -/
def Payload.serialize (p : Payload) : List Nat :=
  stringEscapeEncode (pickleEncode (Payload.doc p))

/-- `Payload.deserialize`: `cPickle.loads(doc.decode('string_escape'))`.
Returns whatever object the pickle bytes encode — for bytes produced by
`serialize` that is the doc dictionary, not a `Payload` instance. -/
def Payload.deserialize (input : List Nat) : Except PyErr PyObject :=
  match stringEscapeDecode input with
  | Option.none => .error (.valueError "invalid string_escape data")
  | some bytes =>
    match pickleLoads bytes with
    | Option.none => .error .unpicklingError
    | some v => .ok (.val v)

/-! ## The handler registry (`daemon_command` in `src/dusty/payload.py`) -/

/-- A Python function object as stored in the registry: qualified location
plus object identity (two distinct function objects may share a module and a
name; `!=` on plain functions compares identity). -/
structure PyFunc where
  module : String
  fname : String
  objId : Nat
  deriving DecidableEq, Repr

/-- Python `str.join` invoked with an explicit argument list: it accepts
exactly one iterable argument and raises `TypeError` at any other arity.
Joining a string `s` places the separator between the one-character strings
of `s`. -/
def strJoinCall (sep : String) (args : List String) : Except PyErr String :=
  match args with
  | [s] => .ok (String.intercalate sep (s.data.map Char.toString))
  | _ => .error (.typeError
      ("join() takes exactly one argument (" ++ toString args.length ++ " given)"))

/-- Python dictionary assignment `m[k] = v` on the registry's mapping. -/
def regSet (m : List (String × PyFunc)) (k : String) (v : PyFunc) :
    List (String × PyFunc) :=
  if m.any (fun kv => kv.1 = k) then
    m.map (fun kv => if kv.1 = k then (k, v) else kv)
  else m ++ [(k, v)]

/-- `daemon_command(f)`: computes the registry key via
`'{}.{}'.join(f.__module__, f.__name__)`, raises on a collision with a
*different* handler already under that key, stores the handler and returns it
together with the updated module-level mapping. -/
def daemon_command (mapping : List (String × PyFunc)) (f : PyFunc) :
    Except PyErr (List (String × PyFunc) × PyFunc) :=
  match strJoinCall "{}.{}" [f.module, f.fname] with
  | .error e => .error e
  | .ok key =>
    match mapping.lookup key with
    | some g =>
      if g ≠ f then
        .error (.runtimeError ("Function mapping key collision: " ++ key ++
          ". Name one of the functions something else"))
      else .ok (regSet mapping key f, f)
    | Option.none => .ok (regSet mapping key f, f)

/-! ## Memoization cache

`dusty/memoize.py` is not in the source tree; only its unit tests and its
call sites are. It is modelled from the specification (§4.3) and the tests in
`src/tests/unit/memoize_test.py`. -/

/-- Modelled from the spec: the `@memoized` decorator caches a zero-argument
query's result after its first invocation for the remainder of the process
lifetime. The underlying query is a state transformer over its environment;
the cache entry for this query is threaded beside that environment, and the
returned `Nat` counts how many underlying invocations this call performed
(0 on a cache hit, 1 on a miss). -/
def memoizedCall {σ α : Type} (q : σ → α × σ) :
    Option α × σ → α × (Option α × σ) × Nat
  | (some v, s) => (v, (some v, s), 0)
  | (Option.none, s) =>
    let r := q s
    (r.1, (some r.1, r.2), 1)

/-- Modelled from the spec: `reset_memoize_cache()` clears every cached entry;
the environment is untouched. -/
def reset_memoize_cache {σ α : Type} (c : Option α × σ) : Option α × σ :=
  (Option.none, c.2)

/-! ## VM provisioner (`src/dusty/systems/virtualbox/__init__.py`)

The external world is explicit: a `VBox` record holds what the probes would
report, and every external command issued is appended to a command trace.
Each embedded function returns its Python return value (when any), the world
after its mutations, and the commands it issued, in order. -/

/-- Modelled from the spec: `constants.VM_NIC_TYPE`, the required NIC-1
hardware type (`dusty/constants.py` is not in the source tree; the exact
string is opaque to the provisioning logic). -/
def VM_NIC_TYPE : String := "Am79C973"

/-- Modelled from the spec: `constants.VM_PERSIST_DIR`, the persisted-storage
directory path (value opaque). -/
def VM_PERSIST_DIR : String := "/persist"

/-- Modelled from the spec: `constants.VM_CP_DIR`, a fixed working directory
path (value opaque). -/
def VM_CP_DIR : String := "/cp"

/-- Modelled from the spec: `constants.VM_ASSETS_DIR`, the remote assets
directory path (value opaque). -/
def VM_ASSETS_DIR : String := "/dusty_assets"

/-- Python's `needle in haystack` substring test. -/
def pyIn (needle haystack : String) : Bool :=
  decide (List.IsInfix needle.data haystack.data)

/-- Python's `s.startswith(pre)`. -/
def pyStartsWith (s pre : String) : Bool :=
  decide (List.IsPrefix pre.data s.data)

/-- Python's `line.split()`: split on whitespace runs, dropping empty
pieces. -/
def pySplit (s : String) : List String :=
  (s.split Char.isWhitespace).filter (fun w => w ≠ "")

/-- One external command issued by the provisioner, as recorded in the
command trace; read-only probes and mutating commands both appear. -/
inductive Cmd where
  | listVms
  | listRunningVms
  | showVmInfo
  | machineCreate
  | modifyNatDnsHostResolver
  | modifyNatNetSubnet
  | machineStart
  | machineStop
  | modifyNic
  | sshVm (command : String)
  deriving DecidableEq, Repr

/-- The external VirtualBox world observed and mutated by the provisioner:
whether the dusty VM exists, whether it is running, and the
`showvminfo --machinereadable` output lines used for the NIC check. -/
structure VBox where
  vmExists : Bool
  running : Bool
  vmInfoLines : List String
  deriving Repr

/-- `_dusty_vm_exists()`: scans `VBoxManage list vms` for the machine name. -/
def _dusty_vm_exists (w : VBox) : Bool × List Cmd :=
  (w.vmExists, [.listVms])

/-- `docker_vm_is_running()`: scans `VBoxManage list runningvms` for the
machine name. -/
def docker_vm_is_running (w : VBox) : Bool × List Cmd :=
  (w.running, [.listRunningVms])

/-- `_init_docker_vm()`: create the VM via docker-machine only if it does not
already exist. -/
def _init_docker_vm (w : VBox) : VBox × List Cmd :=
  let e := _dusty_vm_exists w
  if e.1 then (w, e.2)
  else ({ w with vmExists := true }, e.2 ++ [.machineCreate])

/-- `_apply_nat_dns_host_resolver()`: `VBoxManage modifyvm ...
--natdnshostresolver1 on`. -/
def _apply_nat_dns_host_resolver (w : VBox) : VBox × List Cmd :=
  (w, [.modifyNatDnsHostResolver])

/-- `_apply_nat_net_less_greedy_subnet()`: `VBoxManage modifyvm ... --natnet1
10.174.249/24`. -/
def _apply_nat_net_less_greedy_subnet (w : VBox) : VBox × List Cmd :=
  (w, [.modifyNatNetSubnet])

/-- `_start_docker_vm()`: probe the running state; when not running, apply the
two NAT settings and issue `docker-machine start`. Returns whether the VM was
already running before this call. -/
def _start_docker_vm (w : VBox) : Bool × VBox × List Cmd :=
  let pr := docker_vm_is_running w
  if pr.1 then (pr.1, w, pr.2)
  else
    let d := _apply_nat_dns_host_resolver w
    let n := _apply_nat_net_less_greedy_subnet d.1
    (pr.1, { n.1 with running := true }, pr.2 ++ d.2 ++ n.2 ++ [.machineStart])

/-- `_stop_docker_vm()`: issues `docker-machine stop` unconditionally (no
probe of the running state appears in its body). -/
def _stop_docker_vm (w : VBox) : VBox × List Cmd :=
  ({ w with running := false }, [.machineStop])

/-- `_get_vm_config()`: `VBoxManage showvminfo --machinereadable`, split into
lines. -/
def _get_vm_config (w : VBox) : List String × List Cmd :=
  (w.vmInfoLines, [.showVmInfo])

/-- The pure NIC test over the config lines: some line mentions `nictype1`
without mentioning the required type. -/
def nic_misconfigured (lines : List String) : Bool :=
  lines.any (fun line => pyIn "nictype1" line && !(pyIn VM_NIC_TYPE line))

/-- `_vm_not_using_pcnet_fast_iii()`: reads the VM config and applies the NIC
test. -/
def _vm_not_using_pcnet_fast_iii (w : VBox) : Bool × List Cmd :=
  let c := _get_vm_config w
  (nic_misconfigured c.1, c.2)

/-- `_apply_nic_fix()`: `VBoxManage modifyvm ... --nictype1 VM_NIC_TYPE`; the
VM's NIC-1 type lines now report the required type. -/
def _apply_nic_fix (w : VBox) : VBox × List Cmd :=
  ({ w with vmInfoLines := w.vmInfoLines.map (fun line =>
      if pyIn "nictype1" line then "nictype1=\"" ++ VM_NIC_TYPE ++ "\"" else line) },
   [.modifyNic])

/-- `ensure_docker_vm_is_started()`: create if absent; when NIC-misconfigured,
stop first if running and then modify the NIC; finally the start step.
Returns whether the start step found the VM already running. -/
def ensure_docker_vm_is_started (w : VBox) : Bool × VBox × List Cmd :=
  let i := _init_docker_vm w
  let m := _vm_not_using_pcnet_fast_iii i.1
  let fixStep :=
    if m.1 then
      let pr := docker_vm_is_running i.1
      let st := if pr.1 then _stop_docker_vm i.1 else (i.1, [])
      let fx := _apply_nic_fix st.1
      (fx.1, pr.2 ++ st.2 ++ fx.2)
    else (i.1, ([] : List Cmd))
  let s := _start_docker_vm fixStep.1
  (s.1, s.2.1, i.2 ++ m.2 ++ fixStep.2 ++ s.2.2)

/-- The command string of `_ensure_rsync_is_installed`: the double-attempt
install tolerated for the known spurious nonzero exit. -/
def rsyncInstallCmd : String :=
  "which rsync || tce-load -wi rsync || tce-load -wi rsync"

/-- The `mkdir` guard of `_ensure_persist_dir_is_linked`. -/
def persistMkdirCmd : String :=
  "if [ ! -d /mnt/sda1" ++ VM_PERSIST_DIR ++ " ]; then sudo mkdir /mnt/sda1" ++
    VM_PERSIST_DIR ++ "; fi"

/-- The symlink guard of `_ensure_persist_dir_is_linked`. -/
def persistLinkCmd : String :=
  "if [ ! -d " ++ VM_PERSIST_DIR ++ " ]; then sudo ln -s /mnt/sda1" ++
    VM_PERSIST_DIR ++ " " ++ VM_PERSIST_DIR ++ "; fi"

/-- The guarded `mkdir` command of `_ensure_vm_dir_exists(vm_dir)`. -/
def mkdirIfCmd (vm_dir : String) : String :=
  "if [ ! -d " ++ vm_dir ++ " ]; then sudo mkdir " ++ vm_dir ++ "; fi"

/-- `_ensure_rsync_is_installed()`: one command on the VM. -/
def _ensure_rsync_is_installed (w : VBox) : VBox × List Cmd :=
  (w, [.sshVm rsyncInstallCmd])

/-- `_ensure_persist_dir_is_linked()`: guarded mkdir, then guarded symlink. -/
def _ensure_persist_dir_is_linked (w : VBox) : VBox × List Cmd :=
  (w, [.sshVm persistMkdirCmd, .sshVm persistLinkCmd])

/-- `_ensure_vm_dir_exists(vm_dir)`: guarded mkdir on the VM. -/
def _ensure_vm_dir_exists (w : VBox) (vm_dir : String) : VBox × List Cmd :=
  (w, [.sshVm (mkdirIfCmd vm_dir)])

/-- `_ensure_cp_dir_exists()`. -/
def _ensure_cp_dir_exists (w : VBox) : VBox × List Cmd :=
  _ensure_vm_dir_exists w VM_CP_DIR

/-- `_ensure_assets_dir_exists()`. -/
def _ensure_assets_dir_exists (w : VBox) : VBox × List Cmd :=
  _ensure_vm_dir_exists w VM_ASSETS_DIR

/-- `initialize_docker_vm()`: run the start state machine, then run the four
post-start bootstrap steps only when the start step did not find the VM
already running. -/
def initialize_docker_vm (w : VBox) : VBox × List Cmd :=
  let e := ensure_docker_vm_is_started w
  if e.1 then (e.2.1, e.2.2)
  else
    let r := _ensure_rsync_is_installed e.2.1
    let p := _ensure_persist_dir_is_linked r.1
    let c := _ensure_cp_dir_exists p.1
    let a := _ensure_assets_dir_exists c.1
    (a.1, e.2.2 ++ r.2 ++ p.2 ++ c.2 ++ a.2)

/-! ## Host-IP lookup (`get_host_ip`) -/

/-- The scanning loop of `get_host_ip` over the `VBoxManage list hostonlyifs`
output: a `Name` line sets the in-adapter-block flag to whether the adapter
name occurs in that line; while the flag holds, an `IPAddress` line returns
its second whitespace-separated word; falling off the end raises
`RuntimeError` (the spec's LookupNotFoundError). -/
def get_host_ip_go (adapter : String) : Bool → List String → Except PyErr String
  | _, [] => .error (.runtimeError "Host IP in host only network not found")
  | in_adapter_block, line :: rest =>
    let b := if pyStartsWith line "Name" then pyIn adapter line else in_adapter_block
    if b then
      if pyStartsWith line "IPAddress" then
        match (pySplit line).get? 1 with
        | some w => .ok w
        | Option.none => .error .indexError
      else get_host_ip_go adapter b rest
    else get_host_ip_go adapter b rest

/-- `get_host_ip`'s parse, given the host-only adapter name (from
`get_vm_hostonly_adapter()`) and the adapter configuration output (from
`VBoxManage list hostonlyifs`); the flag starts false. The `@memoized`
wrapper around `get_host_ip` is orthogonal to this parse. -/
def get_host_ip_parse (adapter : String) (host_only_config : List String) :
    Except PyErr String :=
  get_host_ip_go adapter false host_only_config

/-- The in-adapter-block flag after the loop has processed a given list of
lines, starting from `flag`: the last `Name` line seen decides it. -/
def blockFlagAfter (adapter : String) (flag : Bool) (lines : List String) : Bool :=
  lines.foldl (fun acc line =>
    if pyStartsWith line "Name" then pyIn adapter line else acc) flag

/-! ## Asset store (`asset_is_set` / `remove_asset`) -/

/-- The VM-side assets directory: its directory entries (names are unique in
a directory). -/
structure AssetFs where
  entries : List String
  deriving Repr

/-- The underlying remote listing behind `get_assets_on_vm`:
`_check_output_on_vm('ls VM_ASSETS_DIR')`, split into lines and read as a
set of names. -/
def lsAssets (fs : AssetFs) : List String × AssetFs :=
  (fs.entries, fs)

/-- `get_assets_on_vm()`, decorated `@memoized`: the cached directory
listing. -/
def get_assets_on_vm (st : Option (List String) × AssetFs) :
    List String × (Option (List String) × AssetFs) × Nat :=
  memoizedCall lsAssets st

/-- `asset_is_set(asset_key)`: membership of the key in the memoized
listing. -/
def asset_is_set (asset_key : String) (st : Option (List String) × AssetFs) :
    Bool × (Option (List String) × AssetFs) :=
  let r := get_assets_on_vm st
  (r.1.contains asset_key, r.2.1)

/-- `asset_vm_path(asset_key)`: the key's remote path. -/
def asset_vm_path (asset_key : String) : String :=
  VM_ASSETS_DIR ++ "/" ++ asset_key

/-- `remove_asset(asset_key)`: `sudo rm -f` on the key's remote path. The
remote directory loses the entry; the body does not touch the memoization
cache, so the cached listing is carried over unchanged. -/
def remove_asset (asset_key : String) (st : Option (List String) × AssetFs) :
    Option (List String) × AssetFs :=
  (st.1, { entries := st.2.entries.filter (fun e => e ≠ asset_key) })

/-! ## Claim theorems -/

/-- C8: any two payloads carrying the same function reference, positional
arguments and keyword arguments compare equal under `Payload.__eq__`,
whatever their `run_on_daemon`, `client_version` and `suppress_warnings`
values are; equality depends only on (fn, args, kwargs). -/
theorem payload_eq_ignores_version_and_flags
    (fn : FuncRef) (args : PyTup) (kwargs : PyDict)
    (r1 r2 : Bool) (v1 v2 : String) (b1 b2 : Bool) :
    Payload.eq ⟨fn, r1, v1, args, kwargs, b1⟩
      (.payloadObj ⟨fn, r2, v2, args, kwargs, b2⟩) = true := by
  simp [Payload.eq]

/-- C10: `Payload.run` evaluates the stored handler on the stored positional
and keyword arguments, but the Python body has no return statement, so the
handler's result is discarded and `run` always yields `None`, whatever
handler binding is in effect — a caller cannot obtain the handler's result
through `run()`. -/
theorem payload_run_returns_none
    (call : FuncRef → PyTup → PyDict → PyVal) (p : Payload) :
    Payload.run call p = PyVal.none := rfl

/-- `str.join` handed two arguments raises the arity `TypeError`. -/
theorem strJoinCall_two_args (sep a b : String) :
    strJoinCall sep [a, b] =
      .error (.typeError "join() takes exactly one argument (2 given)") := by
  have h2 : toString (2 : Nat) = "2" := by decide
  calc strJoinCall sep [a, b]
      = .error (.typeError ("join() takes exactly one argument (" ++
          toString (2 : Nat) ++ " given)")) := rfl
    _ = .error (.typeError "join() takes exactly one argument (2 given)") := by
        have hs : "join() takes exactly one argument (" ++ "2" ++ " given)" =
            "join() takes exactly one argument (2 given)" := by decide
        rw [h2, hs]

/-- C2 (code evaluated at the failing input): `daemon_command` computes its
registry key with `'{}.{}'.join(f.__module__, f.__name__)`, but `str.join`
takes exactly one argument, so every registration — first-time, repeated, or
colliding — raises `TypeError` before the registry is consulted; neither the
claimed no-op nor the collision error is reachable. -/
theorem daemon_command_always_typeerror
    (mapping : List (String × PyFunc)) (f : PyFunc) :
    daemon_command mapping f =
      .error (.typeError "join() takes exactly one argument (2 given)") := by
  unfold daemon_command
  rw [strJoinCall_two_args]

/-- C9: for a memoized zero-argument accessor, two consecutive calls perform
exactly one underlying query invocation between them and return the same
value; a global cache reset followed by another call performs a second
underlying invocation. -/
theorem memoized_single_underlying_call_and_reset
    {σ α : Type} (q : σ → α × σ) (s : σ) :
    (memoizedCall q (Option.none, s)).2.2 = 1 ∧
    (memoizedCall q ((memoizedCall q (Option.none, s)).2.1)).2.2 = 0 ∧
    (memoizedCall q ((memoizedCall q (Option.none, s)).2.1)).1 =
      (memoizedCall q (Option.none, s)).1 ∧
    (memoizedCall q (reset_memoize_cache
      ((memoizedCall q ((memoizedCall q (Option.none, s)).2.1)).2.1))).2.2 = 1 := by
  rcases hq : q s with ⟨v, s1⟩
  simp [memoizedCall, reset_memoize_cache, hq]

/-- C3 (code evaluated at the failing input): with the assets directory
containing exactly `github_key` and the listing cache warmed by one
`asset_is_set` call, `remove_asset` deletes the remote file (the directory
is empty afterwards) but carries the memoized listing over unchanged, so the
subsequent `asset_is_set` still reports the key as present instead of the
claimed `false`. -/
theorem remove_asset_leaves_listing_stale :
    (remove_asset "github_key"
        (asset_is_set "github_key" (Option.none, ⟨["github_key"]⟩)).2).2.entries
      = [] ∧
    (asset_is_set "github_key" (remove_asset "github_key"
        (asset_is_set "github_key" (Option.none, ⟨["github_key"]⟩)).2)).1
      = true := by
  constructor
  · rfl
  · rfl

/-- C7 counterexample: with the VM already stopped, `_stop_docker_vm` still
issues the stop command and performs no running-state probe — the stop
operation is not the probing no-op the claim describes. -/
theorem stop_docker_vm_counterexample :
    (_stop_docker_vm ⟨true, false, []⟩).2 = [Cmd.machineStop] ∧
    Cmd.listRunningVms ∉ (_stop_docker_vm ⟨true, false, []⟩).2 := by
  decide

/-- C7 amended: `_stop_docker_vm` issues the stop command unconditionally and
performs no probe itself; the running-state probe lives at its call site —
`ensure_docker_vm_is_started` consults `docker_vm_is_running` first, so when
the VM is already stopped the provisioner run issues no stop command at
all. -/
theorem stop_unconditional_with_probe_at_call_site (w : VBox)
    (h : w.running = false) :
    (_stop_docker_vm w).2 = [Cmd.machineStop] ∧
    Cmd.machineStop ∉ (ensure_docker_vm_is_started w).2.2 := by
  refine ⟨rfl, ?_⟩
  by_cases hE : w.vmExists <;>
    by_cases hM : nic_misconfigured w.vmInfoLines <;>
      simp [ensure_docker_vm_is_started, _init_docker_vm, _dusty_vm_exists,
        _vm_not_using_pcnet_fast_iii, _get_vm_config, docker_vm_is_running,
        _stop_docker_vm, _apply_nic_fix, _start_docker_vm,
        _apply_nat_dns_host_resolver, _apply_nat_net_less_greedy_subnet,
        hE, hM, h]

/-- C7 witness: the amended statement holds at a concrete stopped world. -/
theorem stop_unconditional_with_probe_at_call_site_witness :
    (_stop_docker_vm ⟨true, false, []⟩).2 = [Cmd.machineStop] ∧
    Cmd.machineStop ∉ (ensure_docker_vm_is_started ⟨true, false, []⟩).2.2 :=
  stop_unconditional_with_probe_at_call_site ⟨true, false, []⟩ rfl

/-- The serialize/deserialize pipeline: decoding the escaped pickled doc
yields the doc dictionary back. -/
theorem deserialize_serialize_eq (p : Payload) :
    Payload.deserialize (Payload.serialize p) = .ok (.val (Payload.doc p)) := by
  simp [Payload.deserialize, Payload.serialize, stringEscapeDecode_encode,
    pickleLoads_encode]

/-- C1 counterexample: at a concrete payload built from serializable
arguments, `Payload.deserialize(p.serialize())` yields the field dictionary —
not a `Payload` — and the equality contract (`isinstance` check first)
rejects it, so the roundtrip does not reconstruct a payload equal to `p`. -/
theorem deserialize_roundtrip_counterexample :
    Payload.deserialize (Payload.serialize (Payload.init
        ⟨"dusty.commands", "restart"⟩ (.cons (.str "web") .nil)
        (.cons "force" (.bool true) .nil))) =
      .ok (.val (Payload.doc (Payload.init ⟨"dusty.commands", "restart"⟩
        (.cons (.str "web") .nil) (.cons "force" (.bool true) .nil)))) ∧
    Payload.eq (Payload.init ⟨"dusty.commands", "restart"⟩
        (.cons (.str "web") .nil) (.cons "force" (.bool true) .nil))
      (.val (Payload.doc (Payload.init ⟨"dusty.commands", "restart"⟩
        (.cons (.str "web") .nil) (.cons "force" (.bool true) .nil)))) = false :=
  ⟨deserialize_serialize_eq _, rfl⟩

/-- C1 amended: for every payload `p`, `Payload.deserialize(p.serialize())`
returns the serialized field dictionary, whose `fn`, `args` and `kwargs`
entries carry exactly `p`'s function reference, positional arguments and
keyword arguments — but it is a dictionary, not a `Payload` instance, so it
is not equal to `p` under the `Payload.__eq__` contract. -/
theorem deserialize_of_serialize_is_doc (p : Payload) :
    Payload.deserialize (Payload.serialize p) = .ok (.val (Payload.doc p)) ∧
    (Payload.doc p).dictLookup "fn" = some (.func p.fn.module p.fn.fname) ∧
    (Payload.doc p).dictLookup "args" = some (.list p.args) ∧
    (Payload.doc p).dictLookup "kwargs" = some (.dict p.kwargs) ∧
    Payload.eq p (.val (Payload.doc p)) = false := by
  refine ⟨deserialize_serialize_eq p, ?_, ?_, ?_, rfl⟩ <;>
    simp [Payload.doc, PyVal.dictLookup, PyDict.lookup]

/-- `ensure_docker_vm_is_started` issues no `docker-machine ssh` command: the
bootstrap commands can only come from the bootstrap steps. -/
theorem ensure_trace_no_sshVm (w : VBox) (c : String) :
    Cmd.sshVm c ∉ (ensure_docker_vm_is_started w).2.2 := by
  by_cases hE : w.vmExists <;>
    by_cases hM : nic_misconfigured w.vmInfoLines <;>
      by_cases hR : w.running <;>
        simp [ensure_docker_vm_is_started, _init_docker_vm, _dusty_vm_exists,
          _vm_not_using_pcnet_fast_iii, _get_vm_config, docker_vm_is_running,
          _stop_docker_vm, _apply_nic_fix, _start_docker_vm,
          _apply_nat_dns_host_resolver, _apply_nat_net_less_greedy_subnet,
          hE, hM, hR]

/-- C6: in every `initialize_docker_vm` run, each post-start bootstrap
command (the rsync install, the persist-dir mkdir and symlink, and the two
working-directory mkdirs) appears exactly once in the command trace when the
start step found the VM not running, and zero times when the start step
found it already running. -/
theorem initialize_bootstrap_once_iff_fresh_start (w : VBox) :
    ((initialize_docker_vm w).2.count (Cmd.sshVm rsyncInstallCmd)
        = if (ensure_docker_vm_is_started w).1 then 0 else 1) ∧
    ((initialize_docker_vm w).2.count (Cmd.sshVm persistMkdirCmd)
        = if (ensure_docker_vm_is_started w).1 then 0 else 1) ∧
    ((initialize_docker_vm w).2.count (Cmd.sshVm persistLinkCmd)
        = if (ensure_docker_vm_is_started w).1 then 0 else 1) ∧
    ((initialize_docker_vm w).2.count (Cmd.sshVm (mkdirIfCmd VM_CP_DIR))
        = if (ensure_docker_vm_is_started w).1 then 0 else 1) ∧
    ((initialize_docker_vm w).2.count (Cmd.sshVm (mkdirIfCmd VM_ASSETS_DIR))
        = if (ensure_docker_vm_is_started w).1 then 0 else 1) := by
  have hno : ∀ c, (ensure_docker_vm_is_started w).2.2.count (Cmd.sshVm c) = 0 :=
    fun c => List.count_eq_zero.mpr (ensure_trace_no_sshVm w c)
  rcases he : ensure_docker_vm_is_started w with ⟨was, w1, t1⟩
  have hno1 : ∀ c, t1.count (Cmd.sshVm c) = 0 := by
    intro c
    have h := hno c
    rw [he] at h
    exact h
  cases was
  · simp only [initialize_docker_vm, he, Bool.false_eq_true, if_false,
      _ensure_rsync_is_installed, _ensure_persist_dir_is_linked,
      _ensure_cp_dir_exists, _ensure_assets_dir_exists, _ensure_vm_dir_exists,
      List.count_append, hno1]
    refine ⟨?_, ?_, ?_, ?_, ?_⟩ <;> decide
  · simp only [initialize_docker_vm, he, if_true, List.count_append, hno1]
    exact ⟨trivial, trivial, trivial, trivial, trivial⟩

/-- C5: whenever the provisioner runs while the VM exists, is running, and
its NIC-1 type differs from the required type, the stop command, the
NIC-modify command and the (subsequent) start command appear in the trace in
exactly that order, and the stop command is never skipped. -/
theorem ensure_stop_then_nic_then_start (w : VBox)
    (hex : w.vmExists = true) (hrun : w.running = true)
    (hmis : nic_misconfigured w.vmInfoLines = true) :
    ((ensure_docker_vm_is_started w).2.2).filter
        (fun c => c == Cmd.machineStop || c == Cmd.modifyNic || c == Cmd.machineStart)
      = [Cmd.machineStop, Cmd.modifyNic, Cmd.machineStart] ∧
    Cmd.machineStop ∈ (ensure_docker_vm_is_started w).2.2 := by
  have ht : (ensure_docker_vm_is_started w).2.2 =
      [Cmd.listVms, Cmd.showVmInfo, Cmd.listRunningVms, Cmd.machineStop,
       Cmd.modifyNic, Cmd.listRunningVms, Cmd.modifyNatDnsHostResolver,
       Cmd.modifyNatNetSubnet, Cmd.machineStart] := by
    simp [ensure_docker_vm_is_started, _init_docker_vm, _dusty_vm_exists,
      _vm_not_using_pcnet_fast_iii, _get_vm_config, docker_vm_is_running,
      _stop_docker_vm, _apply_nic_fix, _start_docker_vm,
      _apply_nat_dns_host_resolver, _apply_nat_net_less_greedy_subnet,
      hex, hrun, hmis]
  rw [ht]
  exact ⟨by decide, by decide⟩

/-- A line that is not an `IPAddress` line only updates the scan flag. -/
theorem get_host_ip_go_cons_skip (adapter : String) (flag : Bool)
    (line : String) (rest : List String)
    (hip : pyStartsWith line "IPAddress" = false) :
    get_host_ip_go adapter flag (line :: rest) =
      get_host_ip_go adapter
        (if pyStartsWith line "Name" then pyIn adapter line else flag) rest := by
  simp [get_host_ip_go, hip]

/-- Outside the adapter block, any line only updates the scan flag. -/
theorem get_host_ip_go_cons_out (adapter : String) (flag : Bool)
    (line : String) (rest : List String)
    (hb : (if pyStartsWith line "Name" then pyIn adapter line else flag) = false) :
    get_host_ip_go adapter flag (line :: rest) =
      get_host_ip_go adapter false rest := by
  simp [get_host_ip_go, hb]

/-- When every `IPAddress` line of the input occurs while the scan flag is
off, the scan falls off the end and raises the lookup error. -/
theorem get_host_ip_go_absent (adapter : String) :
    ∀ (lines : List String) (flag : Bool),
      (∀ i (h : i < lines.length),
        pyStartsWith (lines.get ⟨i, h⟩) "IPAddress" = true →
        blockFlagAfter adapter flag (lines.take (i + 1)) = false) →
      get_host_ip_go adapter flag lines =
        .error (.runtimeError "Host IP in host only network not found")
  | [], _, _ => rfl
  | line :: rest, flag, habs => by
    have hstep : ∀ i (h : i < rest.length),
        pyStartsWith (rest.get ⟨i, h⟩) "IPAddress" = true →
        blockFlagAfter adapter
          (if pyStartsWith line "Name" then pyIn adapter line else flag)
          (rest.take (i + 1)) = false := by
      intro i h hip
      have h2 := habs (i + 1) (by simpa using Nat.succ_lt_succ h)
        (by simpa using hip)
      simpa [blockFlagAfter] using h2
    by_cases hip0 : pyStartsWith line "IPAddress" = true
    · have h0 := habs 0 (by simp) (by simpa using hip0)
      have hb0 : (if pyStartsWith line "Name" then pyIn adapter line else flag)
          = false := by
        simpa [blockFlagAfter] using h0
      rw [get_host_ip_go_cons_out adapter flag line rest hb0]
      rw [hb0] at hstep
      exact get_host_ip_go_absent adapter rest false hstep
    · rw [get_host_ip_go_cons_skip adapter flag line rest
        (by simpa using hip0)]
      exact get_host_ip_go_absent adapter rest _ hstep

/-- C4: when the host-only adapter's IP block is absent from the adapter
configuration output — no `IPAddress` line occurs while the scan is inside
the adapter's block — the host-IP lookup raises the lookup error
(`RuntimeError`, the spec's LookupNotFoundError, a constructor distinct from
the `calledProcessError` transport/process failure) and returns no value,
empty or otherwise. -/
theorem get_host_ip_raises_when_ip_block_absent (adapter : String)
    (lines : List String)
    (habs : ∀ i (h : i < lines.length),
      pyStartsWith (lines.get ⟨i, h⟩) "IPAddress" = true →
      blockFlagAfter adapter false (lines.take (i + 1)) = false) :
    get_host_ip_parse adapter lines =
      .error (.runtimeError "Host IP in host only network not found") ∧
    ∀ ip, get_host_ip_parse adapter lines ≠ .ok ip := by
  have h : get_host_ip_parse adapter lines =
      .error (.runtimeError "Host IP in host only network not found") :=
    get_host_ip_go_absent adapter lines false habs
  refine ⟨h, ?_⟩
  intro ip hc
  rw [h] at hc
  exact Except.noConfusion hc

/-- C4 witness: output whose only `IPAddress` line belongs to a different
adapter's block. -/
theorem get_host_ip_raises_when_ip_block_absent_witness :
    (∀ i (h : i < (["Name:            vboxnet1",
        "IPAddress:       192.168.56.1"] : List String).length),
      pyStartsWith ((["Name:            vboxnet1",
        "IPAddress:       192.168.56.1"] : List String).get ⟨i, h⟩)
        "IPAddress" = true →
      blockFlagAfter "vboxnet0" false
        ((["Name:            vboxnet1",
           "IPAddress:       192.168.56.1"] : List String).take (i + 1))
        = false) ∧
    get_host_ip_parse "vboxnet0" ["Name:            vboxnet1",
      "IPAddress:       192.168.56.1"] =
      .error (.runtimeError "Host IP in host only network not found") :=
  ⟨by decide,
   (get_host_ip_raises_when_ip_block_absent "vboxnet0"
     ["Name:            vboxnet1", "IPAddress:       192.168.56.1"]
     (by decide)).1⟩

/-- C5 witness: a concrete existing, running, NIC-misconfigured world. -/
theorem ensure_stop_then_nic_then_start_witness :
    nic_misconfigured ["nictype1=\"virtio\""] = true ∧
    (((ensure_docker_vm_is_started ⟨true, true, ["nictype1=\"virtio\""]⟩).2.2).filter
        (fun c => c == Cmd.machineStop || c == Cmd.modifyNic || c == Cmd.machineStart)
      = [Cmd.machineStop, Cmd.modifyNic, Cmd.machineStart] ∧
     Cmd.machineStop ∈ (ensure_docker_vm_is_started ⟨true, true, ["nictype1=\"virtio\""]⟩).2.2) :=
  ⟨by decide, ensure_stop_then_nic_then_start ⟨true, true, ["nictype1=\"virtio\""]⟩
    rfl rfl (by decide)⟩

end Dusty
